import Mathlib

/-!
Shallow embedding of the nim-go-sdk hackathon-starter session layer:
the chat WebSocket hook (`useNimWebSocket.ts`), the confirmation card
countdown (`ConfirmationCard.tsx`), the auth token utilities, the SSE
dashboard broadcaster (`dashboard_api.go`), and the SDK Confirmation
Gateway described by the specification.
-/

namespace NimGoSDK

/-! ## Protocol data model (nim-chat `types.ts`) -/

/-- Message role, from `Message.role : 'user' | 'assistant'`. -/
inductive Role
  | user
  | assistant
deriving DecidableEq

/-- Chat message, from `interface Message` in `types.ts`.
`timestamp` and the `Date.now()` values feeding `id` are modelled as `Nat`
milliseconds. -/
structure Message where
  id : String
  role : Role
  content : String
  timestamp : Nat
deriving DecidableEq

/-- Client → server protocol messages, from `type ClientMessage`. -/
inductive ClientMessage
  | newConversation
  | resumeConversation (conversationId : String)
  | message (content : String)
  | confirm (actionId : String)
  | cancel (actionId : String)
deriving DecidableEq

/-- Confirmation request surfaced to the UI, from `interface ConfirmationRequest`;
`expiresAt` (a `Date`) is modelled as epoch milliseconds. -/
structure ConfirmationRequest where
  actionId : String
  tool : String
  summary : String
  expiresAt : Int
deriving DecidableEq

/-- Connection state, from `type ConnectionState`. -/
inductive ConnectionState
  | connecting
  | connected
  | disconnected
  | reconnecting
  | error
deriving DecidableEq

/-! ## String helpers mirroring the JavaScript primitives used by the hook -/

/-- Whether `pat` is an initial segment of `s` (character lists). -/
def listStartsWith : List Char → List Char → Bool
  | _, [] => true
  | [], _ :: _ => false
  | a :: s, b :: p => a = b && listStartsWith s p

/-- Whether `pat` occurs contiguously inside `s` (character lists). -/
def listContainsSub (s pat : List Char) : Bool :=
  match s with
  | [] => listStartsWith [] pat
  | _ :: t => listStartsWith s pat || listContainsSub t pat

/-- JavaScript `String.prototype.includes`. -/
def strIncludes (s pat : String) : Bool :=
  listContainsSub s.toList pat.toList

/-- Core whitespace characters trimmed by JavaScript `String.prototype.trim`
(the full JS set also has unicode spaces such as NBSP; the ASCII core
suffices for the embedded behaviour). -/
def isJsSpace (c : Char) : Bool :=
  c = ' ' || c = '\t' || c = '\n' || c = '\r' || c = '\x0b' || c = '\x0c'

/-- JavaScript `content.trim()`. -/
def jsTrim (s : String) : String :=
  String.mk (((s.toList.dropWhile isJsSpace).reverse.dropWhile isJsSpace).reverse)

/-- JavaScript `String.prototype.toLowerCase`, character by character. -/
def strToLower (s : String) : String := String.mk (s.toList.map Char.toLower)

/-- The hook builds message ids as `` `msg-${Date.now()}` ``. -/
def mkMsgId (now : Nat) : String := "msg-" ++ toString now

/-! ## Session state of `useNimWebSocket`

The hook's React state and refs: `messages`, `isStreaming`,
`connectionState`, `confirmationRequest`, `streamingContentRef`,
`conversationIdRef`, the `localStorage` slot under `STORAGE_KEY`
(`storedId`), `hasResumeFailedRef`, `reconnectAttemptsRef`, and whether the
current WebSocket is in readyState `OPEN` (`wsOpen`). -/
structure HookState where
  messages : List Message
  isStreaming : Bool
  streamingContent : String
  connectionState : ConnectionState
  confirmationRequest : Option ConfirmationRequest
  conversationId : Option String
  storedId : Option String
  hasResumeFailed : Bool
  reconnectAttempts : Nat
  wsOpen : Bool
deriving DecidableEq

/-- The hook's `send`: transmits only when the socket readyState is `OPEN`,
otherwise the message is silently dropped. Returns the list of messages
actually put on the wire. -/
def send (st : HookState) (m : ClientMessage) : List ClientMessage :=
  if st.wsOpen then [m] else []

/-- Handler for `case 'text_chunk'`: appends the fragment to
`streamingContentRef`, then either rewrites the last assistant message's
content to the accumulated streaming content (the source has two branches —
with and without a trailing `'█'` — whose bodies are identical) or appends a
new assistant message. -/
def handleTextChunk (now : Nat) (content : String) (st : HookState) : HookState :=
  let sc := st.streamingContent ++ content
  let msgs :=
    match st.messages.getLast? with
    | some lastMessage =>
      if lastMessage.role = Role.assistant ∧ lastMessage.content.endsWith "█" = false then
        st.messages.dropLast ++ [{ lastMessage with content := sc }]
      else if lastMessage.role = Role.assistant then
        st.messages.dropLast ++ [{ lastMessage with content := sc }]
      else
        st.messages ++ [⟨mkMsgId now, Role.assistant, sc, now⟩]
    | none => st.messages ++ [⟨mkMsgId now, Role.assistant, sc, now⟩]
  { st with isStreaming := true, streamingContent := sc, messages := msgs }

/-- Handler for `case 'text'` (final text): clears streaming state and
replaces the last assistant message's content with the final content, or
appends a new assistant message carrying it. -/
def handleText (now : Nat) (content : String) (st : HookState) : HookState :=
  let msgs :=
    match st.messages.getLast? with
    | some lastMessage =>
      if lastMessage.role = Role.assistant then
        st.messages.dropLast ++ [{ lastMessage with content := content }]
      else
        st.messages ++ [⟨mkMsgId now, Role.assistant, content, now⟩]
    | none => st.messages ++ [⟨mkMsgId now, Role.assistant, content, now⟩]
  { st with isStreaming := false, streamingContent := "", messages := msgs }

/-- Handler for `case 'confirm_request'`. -/
def handleConfirmRequest (req : ConfirmationRequest) (st : HookState) : HookState :=
  { st with confirmationRequest := some req }

/-- Handler for `case 'complete'`. -/
def handleComplete (st : HookState) : HookState :=
  { st with isStreaming := false, streamingContent := "", confirmationRequest := none }

/-- The `case 'error'` conversation-not-found test:
`content.toLowerCase().includes('conversation not found') ||
 content.toLowerCase().includes('conversation does not exist')`. -/
def isConversationNotFound (content : String) : Bool :=
  strIncludes (strToLower content) "conversation not found" ||
    strIncludes (strToLower content) "conversation does not exist"

/-- The hook's `reconnect()` callback resets the attempt counter to zero and
tears down / re-opens the transport. -/
def reconnectFn (st : HookState) : HookState :=
  { st with reconnectAttempts := 0 }

/-- Handler for `case 'error'`: on conversation-not-found, the stored
conversation id is removed, `hasResumeFailedRef` is set, and `reconnect()`
is invoked (returned boolean); otherwise the error is surfaced as a
synthetic assistant message. -/
def handleError (now : Nat) (content : String) (st : HookState) : HookState × Bool :=
  let st1 := { st with isStreaming := false, streamingContent := "" }
  if isConversationNotFound content then
    (reconnectFn { st1 with storedId := none, conversationId := none, hasResumeFailed := true },
     true)
  else
    ({ st1 with
        messages := st1.messages ++ [⟨mkMsgId now, Role.assistant, "Error: " ++ content, now⟩] },
     false)

/-- The `ws.onopen` handler: marks the connection open, resets the attempt
counter, and sends `resume_conversation` exactly when a stored conversation
id exists and no prior resume attempt failed, otherwise clears the resume
failure flag and sends `new_conversation`. -/
def onOpen (st : HookState) : HookState × ClientMessage :=
  let st1 := { st with
    connectionState := ConnectionState.connected, reconnectAttempts := 0, wsOpen := true }
  match st1.storedId with
  | some storedId =>
    if st1.hasResumeFailed then
      ({ st1 with hasResumeFailed := false }, ClientMessage.newConversation)
    else
      ({ st1 with conversationId := some storedId }, ClientMessage.resumeConversation storedId)
  | none => ({ st1 with hasResumeFailed := false }, ClientMessage.newConversation)

/-- The `ws.onclose` handler: marks the connection closed; while still
mounted, schedules exactly one reconnect after `min(1000·2^attempts, 10000)`
milliseconds when fewer than 5 attempts were consumed (returned as
`some delay`), and otherwise enters the `error` state with nothing
scheduled. -/
def onClose (isMounted : Bool) (st : HookState) : HookState × Option Nat :=
  let st1 := { st with
    connectionState := ConnectionState.disconnected, isStreaming := false, wsOpen := false }
  if isMounted = false then (st1, none)
  else if st1.reconnectAttempts < 5 then
    ({ st1 with
        connectionState := ConnectionState.reconnecting,
        reconnectAttempts := st1.reconnectAttempts + 1 },
     some (min (1000 * 2 ^ st1.reconnectAttempts) 10000))
  else
    ({ st1 with connectionState := ConnectionState.error }, none)

/-- Iterate `k` consecutive transport-failure (`onclose`) events while
mounted, counting how many reconnect attempts get scheduled in total. -/
def closeEventsFrom : Nat → HookState → HookState × Nat
  | 0, st => (st, 0)
  | k + 1, st =>
    let r := onClose true st
    let rest := closeEventsFrom k r.1
    (rest.1, (match r.2 with | some _ => 1 | none => 0) + rest.2)

/-- The hook's `sendMessage`: a no-op on whitespace-only content, otherwise
appends a user message with the trimmed content and transmits
`message{content: trimmed}` through `send`. -/
def sendMessage (now : Nat) (content : String) (st : HookState) :
    HookState × List ClientMessage :=
  if jsTrim content = "" then (st, [])
  else
    let userMessage : Message := ⟨mkMsgId now, Role.user, jsTrim content, now⟩
    ({ st with messages := st.messages ++ [userMessage] },
     send st (ClientMessage.message (jsTrim content)))

/-- The hook's `confirmAction`: transmits `confirm{actionId}` through `send`
and unconditionally clears the visible confirmation request. -/
def confirmAction (actionId : String) (st : HookState) : HookState × List ClientMessage :=
  ({ st with confirmationRequest := none }, send st (ClientMessage.confirm actionId))

/-- The hook's `cancelAction`: transmits `cancel{actionId}` through `send`
and unconditionally clears the visible confirmation request. -/
def cancelAction (actionId : String) (st : HookState) : HookState × List ClientMessage :=
  ({ st with confirmationRequest := none }, send st (ClientMessage.cancel actionId))

/-- Fold a list of `text_chunk` events, each given as
`(Date.now() value, fragment)`, over the assembler state. -/
def chunkFold (st : HookState) (l : List (Nat × String)) : HookState :=
  l.foldl (fun s p => handleTextChunk p.1 p.2 s) st

/-! ## Confirmation countdown (`ConfirmationCard.tsx`)

JavaScript numbers are modelled as rationals; all times are epoch
milliseconds. `timeLeft` is the React state refreshed every 100 ms by
`updateTimeLeft`. -/

namespace Card

/-- The `updateTimeLeft` computation:
`Math.max(0, request.expiresAt.getTime() - Date.now())`. -/
def remainingMs (expiresAt now : ℚ) : ℚ := max 0 (expiresAt - now)

/-- The render-time `totalDuration` variable:
`request.expiresAt.getTime() - Date.now() + timeLeft`. -/
def totalDuration (expiresAt now timeLeft : ℚ) : ℚ := expiresAt - now + timeLeft

/-- The render-time `progress` variable (a percentage):
`totalDuration > 0 ? (timeLeft / totalDuration) * 100 : 0`. -/
def progress (expiresAt now timeLeft : ℚ) : ℚ :=
  if 0 < totalDuration expiresAt now timeLeft then
    timeLeft / totalDuration expiresAt now timeLeft * 100
  else 0

/-- Modelled from the spec: the progress fraction for the visual indicator,
`remaining_ms / original_duration_ms` clamped to `[0, 1]`, where
`original_duration_ms` is the full approval window. -/
def specProgressFraction (remaining originalDuration : ℚ) : ℚ :=
  max 0 (min 1 (remaining / originalDuration))

end Card

/-! ## Notification broadcast hub (`dashboard_api.go`, SSE) -/

namespace SSE

/-- A dashboard change notification, from `type DashboardEvent`. -/
structure DashboardEvent where
  type : String
  action : String
  timestamp : Int
deriving DecidableEq

/-- A registered SSE subscriber: its buffered Go channel
(`make(chan DashboardEvent, 10)` in `handleSSE`), modelled as a queue with
capacity `cap`. -/
structure Subscriber where
  cap : Nat
  buf : List DashboardEvent
deriving DecidableEq

instance : Inhabited Subscriber := ⟨⟨10, []⟩⟩

/-- Capacity of the per-client channel created by `handleSSE`. -/
def clientCap : Nat := 10

/-- Capacity of the hub's own `broadcast` channel. -/
def broadcastCap : Nat := 100

/-- One non-blocking `select { case client <- event: default: }` send:
enqueue when the channel buffer has room, otherwise drop the event for this
subscriber alone. -/
def trySend (c : Subscriber) (e : DashboardEvent) : Subscriber :=
  if c.buf.length < c.cap then { c with buf := c.buf ++ [e] } else c

/-- The `case event := <-b.broadcast` arm of `SSEBroadcaster.run`: attempt a
non-blocking delivery to every currently registered subscriber. -/
def deliver (clients : List Subscriber) (e : DashboardEvent) : List Subscriber :=
  clients.map (fun c => trySend c e)

/-- `NotifyDashboardUpdate`: a non-blocking send of the event into the hub's
`broadcast` channel, dropping the event when that channel is full. -/
def notifyDashboardUpdate (broadcastQueue : List DashboardEvent) (e : DashboardEvent) :
    List DashboardEvent :=
  if broadcastQueue.length < broadcastCap then broadcastQueue ++ [e] else broadcastQueue

/-- Keep-alive interval of `handleSSE` (`time.NewTicker(30 * time.Second)`),
in seconds. -/
def keepAliveSeconds : Nat := 30

end SSE

/-! ## Credential refresh (`utils/auth.ts` and the hook's token-refresh effect) -/

namespace Auth

/-- Stored credentials, from `interface TokenState` (string fields beyond
the tokens are dropped; `expiresAt` is epoch seconds). -/
structure TokenState where
  accessToken : String
  refreshToken : String
  expiresAt : Int
deriving DecidableEq

/-- `isTokenExpiringSoon(expiresAt, bufferSeconds)`; the source computes
`now = Math.floor(Date.now() / 1000)` internally, passed here explicitly. -/
def isTokenExpiringSoon (nowSec expiresAt bufferSeconds : Int) : Bool :=
  nowSec ≥ expiresAt - bufferSeconds

/-- The refresh effect's fixed check interval: `5 * 60 * 1000` ms. -/
def refreshIntervalMs : Nat := 5 * 60 * 1000

/-- The expiry buffer the hook passes to `isTokenExpiringSoon`. -/
def expiryBufferSeconds : Int := 60

/-- Outcome of the `refreshAccessToken` network call: new credentials (which
it also writes to storage), or a thrown error. -/
inductive RefreshOutcome
  | ok (newTokens : TokenState)
  | failed
deriving DecidableEq

/-- Externally visible effects of one refresh check. -/
inductive AuthAction
  | reconnect
  | surfaceError (msg : String)
  | clearTokens
deriving DecidableEq

/-- State the refresh effect reads and writes: the stored credentials
(`getStoredTokens` / `clearStoredTokens`) and whether a transport currently
exists (`wsRef.current`). -/
structure AuthState where
  tokens : Option TokenState
  wsPresent : Bool
deriving DecidableEq

/-- One firing of the `setInterval` callback: when the stored credential is
within the expiry buffer, exchange the refresh token; on success the stored
credentials are replaced and, if a transport exists, `reconnect()` is
invoked; on failure the error is surfaced and stored credentials are
cleared. -/
def intervalRefreshCheck (nowSec : Int) (outcome : RefreshOutcome) (st : AuthState) :
    AuthState × List AuthAction :=
  match st.tokens with
  | none => (st, [])
  | some tokens =>
    if isTokenExpiringSoon nowSec tokens.expiresAt expiryBufferSeconds then
      match outcome with
      | RefreshOutcome.ok newTokens =>
        ({ st with tokens := some newTokens },
         if st.wsPresent then [AuthAction.reconnect] else [])
      | RefreshOutcome.failed =>
        ({ st with tokens := none },
         [AuthAction.surfaceError "Session expired. Please log in again.",
          AuthAction.clearTokens])
    else (st, [])

/-- The `checkImmediately` call run once on mount: identical to the interval
check except that no `reconnect()` is issued on success. -/
def eagerRefreshCheck (nowSec : Int) (outcome : RefreshOutcome) (st : AuthState) :
    AuthState × List AuthAction :=
  match st.tokens with
  | none => (st, [])
  | some tokens =>
    if isTokenExpiringSoon nowSec tokens.expiresAt expiryBufferSeconds then
      match outcome with
      | RefreshOutcome.ok newTokens => ({ st with tokens := some newTokens }, [])
      | RefreshOutcome.failed =>
        ({ st with tokens := none },
         [AuthAction.surfaceError "Session expired. Please log in again.",
          AuthAction.clearTokens])
    else (st, [])

end Auth

/-! ## Confirmation Gateway

The gateway itself lives in the SDK core, which is not among the source
files; following the specification it is modelled here. -/

namespace Gateway

/-- Modelled from the spec: a PendingAction
`{action_id (unique), owning user, tool name, human-readable summary,
expiry timestamp}`; the SDK's gateway implementation is not among the
source files. -/
structure PendingAction where
  actionId : Nat
  user : String
  tool : String
  summary : String
  expiresAt : Nat
deriving DecidableEq

/-- Modelled from the spec: an idempotency key is derived deterministically
from (user ID, tool name, canonicalized input, coarse time bucket). -/
structure IdKey where
  user : String
  tool : String
  canonInput : String
  bucket : Nat
deriving DecidableEq

/-- Modelled from the spec: the fixed bucket width ("e.g. 10 minutes"),
in milliseconds. -/
def bucketWidthMs : Nat := 10 * 60 * 1000

/-- Modelled from the spec: the fixed approval-window TTL
("e.g., 30–120 seconds"), in milliseconds. -/
def ttlMs : Nat := 60 * 1000

/-- Modelled from the spec: the idempotency key of a request, with the
current time rounded down to the bucket width. -/
def idKey (user tool canonInput : String) (nowMs : Nat) : IdKey :=
  ⟨user, tool, canonInput, nowMs / bucketWidthMs⟩

/-- Modelled from the spec: the gateway's store of unresolved
PendingActions, keyed by idempotency key, plus a fresh action-id source. -/
structure GatewayState where
  pending : List (IdKey × PendingAction)
  nextId : Nat
deriving DecidableEq

/-- A gateway with no outstanding PendingActions. -/
def emptyGateway : GatewayState := ⟨[], 0⟩

/-- Modelled from the spec: `register(user, tool, input, summary)` computes
the idempotency key for the current time bucket; if an unresolved
PendingAction already exists under that key it is returned unchanged,
otherwise a new PendingAction with a fresh action id and expiry
`now + TTL` is created and stored. -/
def register (user tool input summary : String) (nowMs : Nat) (st : GatewayState) :
    GatewayState × PendingAction :=
  let key := idKey user tool input nowMs
  match st.pending.find? (fun p => decide (p.1 = key)) with
  | some existing => (st, existing.2)
  | none =>
    let pa : PendingAction := ⟨st.nextId, user, tool, summary, nowMs + ttlMs⟩
    (⟨st.pending ++ [(key, pa)], st.nextId + 1⟩, pa)

end Gateway

/-- A sample hook state used to instantiate theorems at concrete inputs. -/
def sampleState : HookState :=
  ⟨[⟨"msg-0", Role.user, "hello", 0⟩], false, "", ConnectionState.connected,
   none, some "conv-1", some "conv-1", false, 0, true⟩

/-- A sample hook state whose transport is not open. -/
def sampleClosedState : HookState :=
  ⟨[⟨"msg-0", Role.user, "hello", 0⟩], false, "", ConnectionState.disconnected,
   some ⟨"act-1", "send_money", "Send $10 to bob", 1000⟩, some "conv-1", some "conv-1",
   false, 0, false⟩

/-! ## Helper lemmas -/

theorem jsTrim_eq_empty_iff (s : String) :
    jsTrim s = "" ↔ s.toList.all isJsSpace = true := by
  unfold jsTrim
  rw [String.ext_iff]
  show ((s.toList.dropWhile isJsSpace).reverse.dropWhile isJsSpace).reverse = ([] : List Char) ↔ _
  rw [List.reverse_eq_nil_iff, List.dropWhile_eq_nil_iff, List.all_eq_true]
  constructor
  · intro h x hx
    have hsplit := List.takeWhile_append_dropWhile isJsSpace s.toList
    rw [← hsplit] at hx
    rcases List.mem_append.mp hx with h1 | h2
    · exact List.mem_takeWhile_imp h1
    · exact h x (List.mem_reverse.mpr h2)
  · intro h x hx
    have hx' := List.mem_reverse.mp hx
    have hsplit := List.takeWhile_append_dropWhile isJsSpace s.toList
    have : x ∈ s.toList := by
      rw [← hsplit]
      exact List.mem_append.mpr (Or.inr hx')
    exact h x this

theorem handleTextChunk_messages_append (now : Nat) (c : String) (st : HookState)
    (h : ∀ m, st.messages.getLast? = some m → m.role = Role.user) :
    (handleTextChunk now c st).messages
      = st.messages ++ [⟨mkMsgId now, Role.assistant, st.streamingContent ++ c, now⟩] := by
  unfold handleTextChunk
  rcases hget : st.messages.getLast? with _ | m
  · simp [hget]
  · have hm := h m hget
    simp [hget, hm]

theorem handleTextChunk_messages_concat (now : Nat) (c : String) (st : HookState)
    (base : List Message) (m : Message) (hm : st.messages = base ++ [m])
    (hr : m.role = Role.assistant) :
    (handleTextChunk now c st).messages
      = base ++ [{ m with content := st.streamingContent ++ c }] := by
  unfold handleTextChunk
  rw [hm, List.getLast?_concat]
  by_cases he : m.content.endsWith "█" = false <;>
    simp [hr, he, hm, List.dropLast_concat]

theorem handleText_messages_append (now : Nat) (c : String) (st : HookState)
    (h : ∀ m, st.messages.getLast? = some m → m.role = Role.user) :
    (handleText now c st).messages
      = st.messages ++ [⟨mkMsgId now, Role.assistant, c, now⟩] := by
  unfold handleText
  rcases hget : st.messages.getLast? with _ | m
  · simp [hget]
  · have hm := h m hget
    simp [hget, hm]

theorem handleText_messages_concat (now : Nat) (c : String) (st : HookState)
    (base : List Message) (m : Message) (hm : st.messages = base ++ [m])
    (hr : m.role = Role.assistant) :
    (handleText now c st).messages = base ++ [{ m with content := c }] := by
  unfold handleText
  rw [hm, List.getLast?_concat]
  simp [hr, hm, List.dropLast_concat]

theorem chunkFold_shape (base : List Message)
    (hbase : ∀ m, base.getLast? = some m → m.role = Role.user) :
    ∀ (l : List (Nat × String)) (st : HookState),
      (st.messages = base ∨ ∃ m, st.messages = base ++ [m] ∧ m.role = Role.assistant) →
      ((chunkFold st l).messages = base ∨
        ∃ m, (chunkFold st l).messages = base ++ [m] ∧ m.role = Role.assistant) := by
  intro l
  induction l with
  | nil => intro st h; simpa [chunkFold] using h
  | cons p t ih =>
    intro st h
    have hstep : chunkFold st (p :: t) = chunkFold (handleTextChunk p.1 p.2 st) t := rfl
    rw [hstep]
    apply ih
    rcases h with h | ⟨m, hm, hr⟩
    · have hlast : ∀ m, st.messages.getLast? = some m → m.role = Role.user := by
        simp only [h]; exact hbase
      right
      refine ⟨⟨mkMsgId p.1, Role.assistant, st.streamingContent ++ p.2, p.1⟩, ?_, rfl⟩
      rw [handleTextChunk_messages_append p.1 p.2 st hlast, h]
    · right
      exact ⟨{ m with content := st.streamingContent ++ p.2 },
        handleTextChunk_messages_concat p.1 p.2 st base m hm hr, hr⟩

theorem onClose_attempts (st : HookState) :
    (onClose true st).1.reconnectAttempts
      = if st.reconnectAttempts < 5 then st.reconnectAttempts + 1
        else st.reconnectAttempts := by
  by_cases h : st.reconnectAttempts < 5 <;> simp [onClose, h]

theorem closeEventsFrom_sched (k : Nat) (st : HookState) :
    (closeEventsFrom k st).2 = min k (5 - st.reconnectAttempts) := by
  induction k generalizing st with
  | zero => simp [closeEventsFrom]
  | succ k ih =>
    by_cases h : st.reconnectAttempts < 5 <;>
      simp [closeEventsFrom, onClose, h, ih] <;> omega

theorem closeEventsFrom_error :
    ∀ (k : Nat) (st : HookState), 0 < k → 6 ≤ st.reconnectAttempts + k →
      (closeEventsFrom k st).1.connectionState = ConnectionState.error := by
  intro k
  induction k with
  | zero => intro st h0 _; exact absurd h0 (by omega)
  | succ k ih =>
    intro st _ h
    rcases Nat.eq_zero_or_pos k with hk | hk
    · subst hk
      have h5 : ¬ st.reconnectAttempts < 5 := by omega
      simp [closeEventsFrom, onClose, h5]
    · have hatt : 6 ≤ (onClose true st).1.reconnectAttempts + k := by
        rw [onClose_attempts]
        split <;> omega
      have hstep : (closeEventsFrom (k + 1) st).1
          = (closeEventsFrom k (onClose true st).1).1 := rfl
      rw [hstep]
      exact ih (onClose true st).1 hk hatt

/-! ## Claim theorems -/

/-- C9: `sendMessage` on content that is empty or consists only of
whitespace is a complete no-op — no user message is appended and nothing is
put on the wire; on non-whitespace content the appended user message and
the transmitted `message` both carry the trimmed content, and all other
hook state is unchanged. -/
theorem sendMessage_trim_noop_spec (now : Nat) (content : String) (st : HookState) :
    (jsTrim content = "" ↔ content.toList.all isJsSpace = true) ∧
    (jsTrim content = "" → sendMessage now content st = (st, [])) ∧
    (jsTrim content ≠ "" →
      (sendMessage now content st).1.messages
          = st.messages ++ [⟨mkMsgId now, Role.user, jsTrim content, now⟩] ∧
      (sendMessage now content st).2
          = (if st.wsOpen then [ClientMessage.message (jsTrim content)] else []) ∧
      (sendMessage now content st).1.isStreaming = st.isStreaming ∧
      (sendMessage now content st).1.streamingContent = st.streamingContent ∧
      (sendMessage now content st).1.confirmationRequest = st.confirmationRequest ∧
      (sendMessage now content st).1.connectionState = st.connectionState) := by
  refine ⟨jsTrim_eq_empty_iff content, ?_, ?_⟩
  · intro h
    simp [sendMessage, h]
  · intro h
    simp [sendMessage, h, send]

/-- C9 witness: instantiation at a whitespace-only input and at an input
with surrounding whitespace. -/
theorem sendMessage_trim_noop_spec_witness :
    sendMessage 1 "  \n " sampleState = (sampleState, []) ∧
    (sendMessage 1 " hi  " sampleState).1.messages
        = sampleState.messages ++ [⟨mkMsgId 1, Role.user, jsTrim " hi  ", 1⟩] := by
  constructor
  · exact (sendMessage_trim_noop_spec 1 "  \n " sampleState).2.1 (by decide)
  · exact ((sendMessage_trim_noop_spec 1 " hi  " sampleState).2.2 (by decide)).1

/-- C10: `confirmAction` and `cancelAction` clear the UI-visible
confirmation request unconditionally; when the transport is not open the
`confirm`/`cancel` message is silently dropped (nothing is transmitted),
and when it is open exactly that message is transmitted. -/
theorem confirm_cancel_clear_request_spec (actionId : String) (st : HookState) :
    (confirmAction actionId st).1.confirmationRequest = none ∧
    (cancelAction actionId st).1.confirmationRequest = none ∧
    (st.wsOpen = false →
      (confirmAction actionId st).2 = [] ∧ (cancelAction actionId st).2 = []) ∧
    (st.wsOpen = true →
      (confirmAction actionId st).2 = [ClientMessage.confirm actionId] ∧
      (cancelAction actionId st).2 = [ClientMessage.cancel actionId]) ∧
    (confirmAction actionId st).1.messages = st.messages ∧
    (cancelAction actionId st).1.messages = st.messages := by
  refine ⟨rfl, rfl, ?_, ?_, rfl, rfl⟩
  · intro h
    simp [confirmAction, cancelAction, send, h]
  · intro h
    simp [confirmAction, cancelAction, send, h]

/-- C10 witness: instantiation on a closed transport (message dropped, UI
request still cleared) and on an open one. -/
theorem confirm_cancel_clear_request_spec_witness :
    (confirmAction "act-1" sampleClosedState).1.confirmationRequest = none ∧
    (confirmAction "act-1" sampleClosedState).2 = [] ∧
    (cancelAction "act-1" sampleClosedState).2 = [] ∧
    (confirmAction "act-1" sampleState).2 = [ClientMessage.confirm "act-1"] := by
  refine ⟨(confirm_cancel_clear_request_spec "act-1" sampleClosedState).1, ?_, ?_, ?_⟩
  · exact ((confirm_cancel_clear_request_spec "act-1" sampleClosedState).2.2.1 (by decide)).1
  · exact ((confirm_cancel_clear_request_spec "act-1" sampleClosedState).2.2.1 (by decide)).2
  · exact ((confirm_cancel_clear_request_spec "act-1" sampleState).2.2.2.1 (by decide)).1

/-- C3 (code bug evidence): processing a `text_chunk` while the last
message is an already-finalized assistant message from a previous turn
overwrites that message's content in place instead of appending a new
streaming assistant message — the source's two `text_chunk` branches (with
and without a trailing `'█'`) have identical bodies, so finalized assistant
messages are not protected. Here the finalized message "Hello" becomes
"Hi" and no message is appended. -/
theorem text_chunk_overwrites_finalized_assistant :
    (handleTextChunk 2 "Hi"
        ⟨[⟨"msg-1", Role.assistant, "Hello", 1⟩], false, "", ConnectionState.connected,
         none, some "c", some "c", false, 0, true⟩).messages
      = [⟨"msg-1", Role.assistant, "Hi", 1⟩] := by
  decide

/-- C6 (code bug evidence): the countdown display matches the claim
(`remaining_ms = max(0, expiry - now)`), but the rendered progress is
`timeLeft / (expiresAt - now + timeLeft) · 100`, not
`remaining_ms / original_duration_ms` clamped to `[0, 1]`. For an approval
window opened at t = 0 with expiry 1000 ms, at now = 750 ms with the tick
state in sync (`timeLeft = 250`), the code renders 50 % where the claimed
formula gives 25 %. -/
theorem countdown_progress_bug :
    Card.remainingMs 1000 750 = max 0 (1000 - 750) ∧
    Card.remainingMs 1000 750 = 250 ∧
    Card.progress 1000 750 (Card.remainingMs 1000 750) = 50 ∧
    Card.specProgressFraction (Card.remainingMs 1000 750) 1000 * 100 = 25 ∧
    Card.progress 1000 750 (Card.remainingMs 1000 750)
      ≠ Card.specProgressFraction (Card.remainingMs 1000 750) 1000 * 100 := by
  have hrem : Card.remainingMs 1000 750 = 250 := by norm_num [Card.remainingMs]
  refine ⟨by norm_num [Card.remainingMs], hrem, ?_, ?_, ?_⟩
  · rw [hrem]; norm_num [Card.progress, Card.totalDuration]
  · rw [hrem]; norm_num [Card.specProgressFraction]
  · rw [hrem]; norm_num [Card.progress, Card.totalDuration, Card.specProgressFraction]

/-- C5: when the backend reports the bound conversation cannot be found,
the hook clears the stored conversation id, marks resumption as failed, and
invokes `reconnect()`; the next successful connect then sends
`new_conversation`. Moreover a `resume_conversation` request is sent on
connect exactly when a stored id exists and no prior resume attempt failed,
so a failed resume is never retried. -/
theorem resume_fallback_policy (now : Nat) (content : String) (st : HookState) :
    (isConversationNotFound content = true →
      (handleError now content st).1.storedId = none ∧
      (handleError now content st).1.hasResumeFailed = true ∧
      (handleError now content st).2 = true ∧
      (onOpen (handleError now content st).1).2 = ClientMessage.newConversation) ∧
    (∀ cid : String,
      (onOpen st).2 = ClientMessage.resumeConversation cid ↔
        st.storedId = some cid ∧ st.hasResumeFailed = false) := by
  constructor
  · intro h
    simp [handleError, h, reconnectFn, onOpen]
  · intro cid
    cases hsid : st.storedId with
    | none => simp [onOpen, hsid]
    | some s =>
      by_cases hf : st.hasResumeFailed
      · simp [onOpen, hsid, hf]
      · simp [onOpen, hsid, hf]

/-- C5 witness: a concrete "conversation not found" error followed by a
connect, and the resume-condition equivalence at a state whose stored id is
present with no failed resume. -/
theorem resume_fallback_policy_witness :
    (handleError 3 "Conversation not found" sampleState).1.storedId = none ∧
    (onOpen (handleError 3 "Conversation not found" sampleState).1).2
        = ClientMessage.newConversation ∧
    ((onOpen sampleState).2 = ClientMessage.resumeConversation "conv-1" ↔
      sampleState.storedId = some "conv-1" ∧ sampleState.hasResumeFailed = false) := by
  have h := resume_fallback_policy 3 "Conversation not found" sampleState
  have h1 := h.1 (by decide)
  exact ⟨h1.1, h1.2.2.2, h.2 "conv-1"⟩

/-- C8 counterexample: at startup the eager refresh check
(`checkImmediately`) refreshes an expiring credential but does not
reconnect the transport, even when one exists — so as stated (every
within-buffer check exchanges, updates and transparently reconnects) the
claim fails. Here the token with `expiresAt = 1000` is within the 60 s
buffer at `now = 1000`, the exchange succeeds and updates the stored
credentials, yet no action (in particular no reconnect) is issued. -/
theorem eager_refresh_no_reconnect_counterexample :
    Auth.isTokenExpiringSoon 1000 1000 Auth.expiryBufferSeconds = true ∧
    (Auth.eagerRefreshCheck 1000 (Auth.RefreshOutcome.ok ⟨"a2", "r2", 5000⟩)
        ⟨some ⟨"a1", "r1", 1000⟩, true⟩).1.tokens = some ⟨"a2", "r2", 5000⟩ ∧
    (Auth.eagerRefreshCheck 1000 (Auth.RefreshOutcome.ok ⟨"a2", "r2", 5000⟩)
        ⟨some ⟨"a1", "r1", 1000⟩, true⟩).2 = [] := by
  decide

/-- C8 (amended): the refresh effect checks expiry against the 60 s buffer
once eagerly at startup and then every `refreshIntervalMs = 5` minutes;
when the credential is within the buffer, a successful exchange replaces
the stored credentials, and the interval check additionally reconnects the
transport when one exists (the eager startup check does not reconnect); a
failed exchange surfaces the fatal "Session expired" error and clears the
stored credentials, after which every later check is a no-op (no silent
retry). -/
theorem token_refresh_behavior (nowSec : Int) (t newT : Auth.TokenState) (ws : Bool) :
    (Auth.isTokenExpiringSoon nowSec t.expiresAt Auth.expiryBufferSeconds = true →
      Auth.intervalRefreshCheck nowSec (Auth.RefreshOutcome.ok newT) ⟨some t, ws⟩
          = (⟨some newT, ws⟩, if ws then [Auth.AuthAction.reconnect] else []) ∧
      Auth.eagerRefreshCheck nowSec (Auth.RefreshOutcome.ok newT) ⟨some t, ws⟩
          = (⟨some newT, ws⟩, []) ∧
      Auth.intervalRefreshCheck nowSec Auth.RefreshOutcome.failed ⟨some t, ws⟩
          = (⟨none, ws⟩,
             [Auth.AuthAction.surfaceError "Session expired. Please log in again.",
              Auth.AuthAction.clearTokens]) ∧
      Auth.eagerRefreshCheck nowSec Auth.RefreshOutcome.failed ⟨some t, ws⟩
          = (⟨none, ws⟩,
             [Auth.AuthAction.surfaceError "Session expired. Please log in again.",
              Auth.AuthAction.clearTokens])) ∧
    (Auth.isTokenExpiringSoon nowSec t.expiresAt Auth.expiryBufferSeconds = false →
      ∀ outcome,
        Auth.intervalRefreshCheck nowSec outcome ⟨some t, ws⟩ = (⟨some t, ws⟩, []) ∧
        Auth.eagerRefreshCheck nowSec outcome ⟨some t, ws⟩ = (⟨some t, ws⟩, [])) ∧
    (∀ outcome,
      Auth.intervalRefreshCheck nowSec outcome ⟨none, ws⟩ = (⟨none, ws⟩, []) ∧
      Auth.eagerRefreshCheck nowSec outcome ⟨none, ws⟩ = (⟨none, ws⟩, [])) ∧
    Auth.refreshIntervalMs = 5 * 60 * 1000 := by
  refine ⟨?_, ?_, ?_, rfl⟩
  · intro h
    refine ⟨?_, ?_, ?_, ?_⟩ <;>
      simp [Auth.intervalRefreshCheck, Auth.eagerRefreshCheck, h]
  · intro h outcome
    constructor <;> simp [Auth.intervalRefreshCheck, Auth.eagerRefreshCheck, h]
  · intro outcome
    constructor <;> simp [Auth.intervalRefreshCheck, Auth.eagerRefreshCheck]

/-- C8 witness: concrete instantiation with an expiring token, a fresh
token, a present transport, and both refresh outcomes. -/
theorem token_refresh_behavior_witness :
    Auth.intervalRefreshCheck 1000 (Auth.RefreshOutcome.ok ⟨"a2", "r2", 5000⟩)
        ⟨some ⟨"a1", "r1", 1000⟩, true⟩
      = (⟨some ⟨"a2", "r2", 5000⟩, true⟩, [Auth.AuthAction.reconnect]) ∧
    Auth.intervalRefreshCheck 1000 Auth.RefreshOutcome.failed ⟨some ⟨"a1", "r1", 1000⟩, true⟩
      = (⟨none, true⟩,
         [Auth.AuthAction.surfaceError "Session expired. Please log in again.",
          Auth.AuthAction.clearTokens]) ∧
    Auth.intervalRefreshCheck 2000 (Auth.RefreshOutcome.ok ⟨"a2", "r2", 5000⟩) ⟨none, true⟩
      = (⟨none, true⟩, []) := by
  have h := token_refresh_behavior 1000 ⟨"a1", "r1", 1000⟩ ⟨"a2", "r2", 5000⟩ true
  have h1 := h.1 (by decide)
  refine ⟨by simpa using h1.1, h1.2.2.1, ?_⟩
  exact ((token_refresh_behavior 2000 ⟨"a1", "r1", 1000⟩ ⟨"a2", "r2", 5000⟩ true).2.2.1
    (Auth.RefreshOutcome.ok ⟨"a2", "r2", 5000⟩)).1

/-- C7: publishing a broadcast event delivers it to every registered
subscriber whose mailbox has free capacity, drops it for a subscriber
whose mailbox is full (for that subscriber alone, leaving it unchanged),
and the outcome for subscriber `i` depends only on subscriber `i`'s own
mailbox — a slow subscriber (full mailbox) never affects delivery to the
others, and `deliver` is a total function of the subscriber list, so the
publisher never waits on any subscriber. -/
theorem publish_best_effort_delivery (clients : List SSE.Subscriber) (e : SSE.DashboardEvent)
    (i : Nat) (h : i < clients.length) :
    (SSE.deliver clients e).length = clients.length ∧
    (SSE.deliver clients e)[i]! = SSE.trySend clients[i]! e ∧
    (clients[i]!.buf.length < clients[i]!.cap →
      ((SSE.deliver clients e)[i]!).buf = clients[i]!.buf ++ [e]) ∧
    (¬ clients[i]!.buf.length < clients[i]!.cap →
      (SSE.deliver clients e)[i]! = clients[i]!) ∧
    (∀ clients' : List SSE.Subscriber, clients'.length = clients.length →
      clients'[i]! = clients[i]! →
      (SSE.deliver clients' e)[i]! = (SSE.deliver clients e)[i]!) := by
  have hlen : ∀ l : List SSE.Subscriber, (SSE.deliver l e).length = l.length := by
    intro l; simp [SSE.deliver]
  have hget : ∀ (l : List SSE.Subscriber), i < l.length →
      (SSE.deliver l e)[i]! = SSE.trySend l[i]! e := by
    intro l hi
    have hi' : i < (SSE.deliver l e).length := by rw [hlen]; exact hi
    rw [getElem!_pos (SSE.deliver l e) i hi', getElem!_pos l i hi]
    exact List.getElem_map _
  refine ⟨hlen clients, hget clients h, ?_, ?_, ?_⟩
  · intro hroom
    rw [hget clients h]
    simp [SSE.trySend, hroom]
  · intro hfull
    rw [hget clients h]
    simp [SSE.trySend, hfull]
  · intro clients' hlen' heq
    rw [hget clients h, hget clients' (by rw [hlen']; exact h), heq]

/-- C7 witness: two subscribers, the first full (capacity 1, one queued
event) and the second with room; the published event reaches the second
and is dropped for the first only. -/
theorem publish_best_effort_delivery_witness :
    (SSE.deliver [⟨1, [⟨"budget", "created", 5⟩]⟩, ⟨10, []⟩] ⟨"budget", "updated", 9⟩).length
        = 2 ∧
    (SSE.deliver [⟨1, [⟨"budget", "created", 5⟩]⟩, ⟨10, []⟩] ⟨"budget", "updated", 9⟩)[0]!
        = ⟨1, [⟨"budget", "created", 5⟩]⟩ ∧
    ((SSE.deliver [⟨1, [⟨"budget", "created", 5⟩]⟩, ⟨10, []⟩] ⟨"budget", "updated", 9⟩)[1]!).buf
        = [⟨"budget", "updated", 9⟩] := by
  refine ⟨(publish_best_effort_delivery _ ⟨"budget", "updated", 9⟩ 0 (by decide)).1, ?_, ?_⟩
  · exact (publish_best_effort_delivery
      [⟨1, [⟨"budget", "created", 5⟩]⟩, ⟨10, []⟩] ⟨"budget", "updated", 9⟩ 0
      (by decide)).2.2.2.1 (by decide)
  · have := (publish_best_effort_delivery
      [⟨1, [⟨"budget", "created", 5⟩]⟩, ⟨10, []⟩] ⟨"budget", "updated", 9⟩ 1
      (by decide)).2.2.1 (by decide)
    simpa using this

/-- C4: each transport failure while retry budget remains schedules exactly
one reconnect attempt after `min(1000·2^attempts, 10000)` ms and increments
the counter; with the budget exhausted the state becomes `error` and
nothing is scheduled; from a fresh counter, `k` consecutive failures
schedule `min k 5` reconnect attempts in total — so at most 5 — and from
the 6th consecutive close event on (the failure of the 5th scheduled
attempt) the state is `error`, with no attempt ever scheduled again until
an explicit reset; the explicit `reconnect()` reset and a successful
`onopen` both reset the counter to zero. -/
theorem reconnect_backoff_policy (st : HookState) :
    (st.reconnectAttempts < 5 →
      (onClose true st).2 = some (min (1000 * 2 ^ st.reconnectAttempts) 10000) ∧
      (onClose true st).1.connectionState = ConnectionState.reconnecting ∧
      (onClose true st).1.reconnectAttempts = st.reconnectAttempts + 1) ∧
    (5 ≤ st.reconnectAttempts →
      (onClose true st).2 = none ∧
      (onClose true st).1.connectionState = ConnectionState.error) ∧
    (5 ≤ st.reconnectAttempts → ∀ k, (closeEventsFrom k st).2 = 0) ∧
    (st.reconnectAttempts = 0 → ∀ k, (closeEventsFrom k st).2 = min k 5) ∧
    (st.reconnectAttempts = 0 → ∀ k, 6 ≤ k →
      (closeEventsFrom k st).1.connectionState = ConnectionState.error) ∧
    (onOpen st).1.reconnectAttempts = 0 ∧
    (reconnectFn st).reconnectAttempts = 0 := by
  refine ⟨?_, ?_, ?_, ?_, ?_, ?_, rfl⟩
  · intro h
    simp [onClose, h]
  · intro h
    have h5 : ¬ st.reconnectAttempts < 5 := by omega
    simp [onClose, h5]
  · intro h k
    rw [closeEventsFrom_sched]
    omega
  · intro h k
    rw [closeEventsFrom_sched, h]
  · intro h k hk
    exact closeEventsFrom_error k st (by omega) (by omega)
  · rcases hsid : st.storedId with _ | s
    · simp [onOpen, hsid]
    · by_cases hf : st.hasResumeFailed <;> simp [onOpen, hsid, hf]

/-- C4 witness: from a fresh counter, the first failure schedules one
attempt after the 1000 ms base delay; 7 consecutive failures schedule only
5 attempts and leave the state in `error`; the explicit reset zeroes the
counter. -/
theorem reconnect_backoff_policy_witness :
    (onClose true sampleState).2 = some 1000 ∧
    (closeEventsFrom 7 sampleState).2 = min 7 5 ∧
    (closeEventsFrom 7 sampleState).1.connectionState = ConnectionState.error ∧
    (reconnectFn sampleState).reconnectAttempts = 0 := by
  have h := reconnect_backoff_policy sampleState
  refine ⟨?_, h.2.2.2.1 rfl 7, h.2.2.2.2.1 rfl 7 (by omega), h.2.2.2.2.2.2⟩
  have h1 := (h.1 (by decide)).1
  simpa using h1

/-- C2: for every sequence of `text_chunk` events followed by a final
`text` event within one conversational turn (the turn starts with the last
message being a user message, or no message at all), exactly one assistant
message is appended to the list, and its content is exactly the `text`
event's content — whatever the chunk fragments concatenated to. -/
theorem chunks_then_final_text_single_assistant_message
    (st0 : HookState) (l : List (Nat × String)) (now : Nat) (final : String)
    (h : ∀ m, st0.messages.getLast? = some m → m.role = Role.user) :
    ∃ m : Message,
      (handleText now final (chunkFold st0 l)).messages = st0.messages ++ [m] ∧
      m.role = Role.assistant ∧ m.content = final := by
  rcases chunkFold_shape st0.messages h l st0 (Or.inl rfl) with hbase | ⟨m, hm, hr⟩
  · have hlast : ∀ m, (chunkFold st0 l).messages.getLast? = some m → m.role = Role.user := by
      simp only [hbase]; exact h
    refine ⟨⟨mkMsgId now, Role.assistant, final, now⟩, ?_, rfl, rfl⟩
    rw [handleText_messages_append now final _ hlast, hbase]
  · exact ⟨{ m with content := final },
      handleText_messages_concat now final _ st0.messages m hm hr, hr, rfl⟩

/-- C2 witness: the spec's streaming scenario — three chunks
`"The"`, `" balance"`, `" is $42"` followed by the final text
`"The balance is $42"` append exactly one assistant message carrying the
final text after the user message. -/
theorem chunks_then_final_text_single_assistant_message_witness :
    ∃ m : Message,
      (handleText 4 "The balance is $42"
          (chunkFold sampleState [(1, "The"), (2, " balance"), (3, " is $42")])).messages
        = sampleState.messages ++ [m] ∧
      m.role = Role.assistant ∧ m.content = "The balance is $42" := by
  refine chunks_then_final_text_single_assistant_message sampleState
    [(1, "The"), (2, " balance"), (3, " is $42")] 4 "The balance is $42" ?_
  intro m hm
  simp [sampleState] at hm
  simp [← hm]

/-- C1: two `register` calls with identical (user, tool, canonicalized
input): when the second falls in the same time bucket as the first, it
returns the very same PendingAction and leaves the gateway unchanged
(idempotent registration); when it falls in a different bucket — and no
unresolved action is outstanding under the new bucket's key — a new
PendingAction with a different action id is created and stored. The
invariant hypothesis says every stored action id is below the fresh-id
counter. -/
theorem register_idempotent_within_bucket
    (st0 : Gateway.GatewayState) (u t i s1 s2 : String) (n1 n2 : Nat)
    (hinv : ∀ kp ∈ st0.pending, kp.2.actionId < st0.nextId) :
    (n1 / Gateway.bucketWidthMs = n2 / Gateway.bucketWidthMs →
      Gateway.register u t i s2 n2 (Gateway.register u t i s1 n1 st0).1
        = ((Gateway.register u t i s1 n1 st0).1, (Gateway.register u t i s1 n1 st0).2)) ∧
    (n1 / Gateway.bucketWidthMs ≠ n2 / Gateway.bucketWidthMs →
      st0.pending.find? (fun p => decide (p.1 = Gateway.idKey u t i n2)) = none →
      (Gateway.register u t i s2 n2 (Gateway.register u t i s1 n1 st0).1).2.actionId
          ≠ (Gateway.register u t i s1 n1 st0).2.actionId ∧
      (Gateway.register u t i s2 n2 (Gateway.register u t i s1 n1 st0).1).1.pending
        = (Gateway.register u t i s1 n1 st0).1.pending
            ++ [(Gateway.idKey u t i n2,
                 (Gateway.register u t i s2 n2 (Gateway.register u t i s1 n1 st0).1).2)]) := by
  constructor
  · intro hb
    have hkeq : Gateway.idKey u t i n2 = Gateway.idKey u t i n1 := by
      simp [Gateway.idKey, hb]
    cases hfind : st0.pending.find? (fun p => decide (p.1 = Gateway.idKey u t i n1)) with
    | some kp => simp [Gateway.register, hfind, hkeq]
    | none => simp [Gateway.register, hfind, hkeq, List.find?_append]
  · intro hb hkey2
    have hkne : Gateway.idKey u t i n1 ≠ Gateway.idKey u t i n2 := by
      simp [Gateway.idKey]
      exact hb
    cases hfind : st0.pending.find? (fun p => decide (p.1 = Gateway.idKey u t i n1)) with
    | some kp =>
      have hlt := hinv kp (List.mem_of_find?_eq_some hfind)
      simp [Gateway.register, hfind, hkey2]
      omega
    | none =>
      simp [Gateway.register, hfind, hkey2, List.find?_append, hkne]

/-- C1 witness: starting from the empty gateway, registering
`(userA, send_money, {to: bob, amount: 10})` twice inside bucket 0 yields
the same action id and leaves the store unchanged, while a third call one
bucket later creates an action with a different id. -/
theorem register_idempotent_within_bucket_witness :
    (Gateway.register "userA" "send_money" "to=bob;amount=10" "Send $10 to bob" 7
        (Gateway.register "userA" "send_money" "to=bob;amount=10" "Send $10 to bob" 5
          Gateway.emptyGateway).1)
      = ((Gateway.register "userA" "send_money" "to=bob;amount=10" "Send $10 to bob" 5
            Gateway.emptyGateway).1,
         (Gateway.register "userA" "send_money" "to=bob;amount=10" "Send $10 to bob" 5
            Gateway.emptyGateway).2) ∧
    (Gateway.register "userA" "send_money" "to=bob;amount=10" "Send $10 to bob"
        (5 + Gateway.bucketWidthMs)
        (Gateway.register "userA" "send_money" "to=bob;amount=10" "Send $10 to bob" 5
          Gateway.emptyGateway).1).2.actionId
      ≠ (Gateway.register "userA" "send_money" "to=bob;amount=10" "Send $10 to bob" 5
          Gateway.emptyGateway).2.actionId := by
  have h1 := register_idempotent_within_bucket Gateway.emptyGateway "userA" "send_money"
    "to=bob;amount=10" "Send $10 to bob" "Send $10 to bob" 5 7
    (by simp [Gateway.emptyGateway])
  have h2 := register_idempotent_within_bucket Gateway.emptyGateway "userA" "send_money"
    "to=bob;amount=10" "Send $10 to bob" "Send $10 to bob" 5 (5 + Gateway.bucketWidthMs)
    (by simp [Gateway.emptyGateway])
  exact ⟨h1.1 (by decide), (h2.2 (by decide) rfl).1⟩

end NimGoSDK
